import Mathlib

set_option autoImplicit false

/-!
Shallow embedding of the client-side scripts of the yt-video-downloader
repository (static/app.js — a direct-stream document and a job-polling
document —, static/audio.js, static/playlist.js, and the unnamed parts),
together with spec-modelled definitions for the server-side Link Store and
History Log, whose Python sources are not part of the extracted tree.
-/

namespace YtDl

/-! ## Form submit handlers and the empty-URL guard -/

/-- The JS `String.prototype.trim()`: strips leading and trailing
whitespace, written over the character list so it evaluates in the
kernel. -/
def jsTrim (s : String) : String :=
  String.mk
    (((s.data.dropWhile Char.isWhitespace).reverse.dropWhile
      Char.isWhitespace).reverse)

/-- Payload built by `buildPayload` in the direct-stream document of app.js:
`{url, quality, filename}` with `url` and `filename` trimmed. -/
structure StreamPayload where
  url : String
  quality : String
  filename : String
  deriving DecidableEq, Repr

/-- Payload built by `buildPayload(quality, container)` in part_001. -/
structure Part001Payload where
  url : String
  quality : String
  filename : String
  container : String
  deriving DecidableEq, Repr

/-- Payload sent by part_002: `{url}` only. -/
structure Part002Payload where
  url : String
  deriving DecidableEq, Repr

/-- Payload sent by the job-polling document of app.js: `{url, quality}`. -/
structure PollingPayload where
  url : String
  quality : String
  deriving DecidableEq, Repr

/-- Payload built by `buildPayload` in audio.js (container fixed to m4a). -/
structure AudioPayload where
  url : String
  quality : String
  filename : String
  container : String
  deriving DecidableEq, Repr

/-- Payload built by `buildPayload` in playlist.js (container from mode). -/
structure PlaylistPayload where
  url : String
  quality : String
  filename : String
  container : String
  deriving DecidableEq, Repr

/-- Outcome of a handler, up to the point where it either shows a rejection
message or issues the POST to the download endpoint. -/
inductive HandlerAction (π : Type) where
  | reject (message : String)
  | fetchDownload (payload : π)
  deriving DecidableEq, Repr

/-- Whether the handler reached the `fetch` call. -/
def HandlerAction.issuesFetch {π : Type} : HandlerAction π → Bool
  | .reject _ => false
  | .fetchDownload _ => true

/-- app.js (direct-stream document), form submit handler: builds the payload
and rejects when the trimmed URL is empty, before any fetch. -/
def appStreamSubmit (urlRaw quality filenameRaw : String) :
    HandlerAction StreamPayload :=
  let payload : StreamPayload := ⟨jsTrim urlRaw, quality, jsTrim filenameRaw⟩
  if payload.url = "" then .reject "Please paste a YouTube URL first."
  else .fetchDownload payload

/-- part_001, `startDownload(quality, container)`: same guard. -/
def part001StartDownload (urlRaw filenameRaw quality container : String) :
    HandlerAction Part001Payload :=
  let payload : Part001Payload := ⟨jsTrim urlRaw, quality, jsTrim filenameRaw, container⟩
  if payload.url = "" then .reject "Please paste a YouTube URL first."
  else .fetchDownload payload

/-- part_002, form submit handler: trims the URL and rejects when empty. -/
def part002Submit (urlRaw : String) : HandlerAction Part002Payload :=
  let url := jsTrim urlRaw
  if url = "" then .reject "Please paste a YouTube URL first."
  else .fetchDownload ⟨url⟩

/-- Outcome of the audio.js form submit handler, which dispatches either to
the formats endpoint (first submit) or to `startDownload`. -/
inductive AudioSubmitAction where
  | reject (message : String)
  | fetchAudioFormats (url : String)
  | fetchDownload (payload : AudioPayload)
  deriving DecidableEq, Repr

/-- audio.js, form submit handler: builds the payload (quality falls back to
the select value and then to "best"), rejects on empty trimmed URL, then
either fetches formats or starts the download. -/
def audioFormSubmit (urlRaw qualitySelect filenameRaw : String)
    (hasOptions : Bool) : AudioSubmitAction :=
  let payload : AudioPayload :=
    ⟨jsTrim urlRaw, if qualitySelect = "" then "best" else qualitySelect,
      jsTrim filenameRaw, "m4a"⟩
  if payload.url = "" then .reject "Please paste a YouTube URL first."
  else if hasOptions = false then .fetchAudioFormats payload.url
  else .fetchDownload payload

/-- audio.js, `startDownload(selectedQuality)` (invoked directly from the
download-row buttons): builds `buildPayload(selectedQuality)` — quality is
`selectedQuality || qualitySelect.value || "best"` — and posts it to the
download endpoint with no emptiness check on the URL. -/
def audioStartDownload (urlRaw qualitySelect filenameRaw
    selectedQuality : String) : HandlerAction AudioPayload :=
  .fetchDownload
    ⟨jsTrim urlRaw,
      if selectedQuality = "" then
        (if qualitySelect = "" then "best" else qualitySelect)
      else selectedQuality,
      jsTrim filenameRaw, "m4a"⟩

/-- playlist.js, `startDownload` (invoked by the form submit handler):
builds the payload and rejects on empty trimmed URL. -/
def playlistStartDownload (urlRaw mode qualitySelect filenameRaw : String) :
    HandlerAction PlaylistPayload :=
  let payload : PlaylistPayload :=
    ⟨jsTrim urlRaw, qualitySelect, jsTrim filenameRaw,
      if mode = "audio" then "mp3" else "mp4"⟩
  if payload.url = "" then .reject "Please paste a playlist URL first."
  else .fetchDownload payload

/-- app.js (job-polling document), `startDownload` registered as the form
submit handler: builds `{url: urlInput.value.trim(), quality}` and posts it
to the download endpoint with no emptiness check on the URL. -/
def pollingStartDownload (urlRaw qualitySelect : String) :
    HandlerAction PollingPayload :=
  .fetchDownload ⟨jsTrim urlRaw, qualitySelect⟩

/-! ## Progress display (C6) -/

/-- The clamp applied by `setStatus` in the job-polling document:
`Math.max(0, Math.min(100, progressValue))`. -/
def setStatusClamp (progressValue : Int) : Int :=
  max 0 (min 100 progressValue)

/-- Percent shown while streaming the response body in part_001 / audio.js /
playlist.js: computed only under the `contentLength > 0` guard as
`Math.min(100, Math.floor((received / contentLength) * 100))`. -/
def streamPercent (contentLength received : Nat) : Option Nat :=
  if 0 < contentLength then some (min 100 (received * 100 / contentLength))
  else none

/-! ## Video rows (C9) -/

/-- part_001, `renderVideoRows(qualities, containers)`: one row per quality
and per container, with the audio-only containers filtered out. -/
def renderVideoRows (qualities containers : List String) :
    List (String × String) :=
  let list := if qualities.length ≠ 0 then qualities else []
  let videoContainers := containers.filter fun c => c != "m4a" && c != "mp3"
  list.flatMap fun quality => videoContainers.map fun container =>
    (quality, container)

/-! ## Status polling (C4, C5) -/

/-- The JSON body of a `GET /api/status/{job_id}` response, as destructured
by `checkStatus` in the job-polling document of app.js. -/
structure StatusResponse where
  status : String
  progress : Option Int
  downloadUrl : Option String
  error : Option String
  filename : Option String
  deriving DecidableEq, Repr

/-- The DOM effects of one successful `checkStatus` poll: the status label
and clamped percent passed to `setStatus`, whether the poll timer was
cleared and the submit button re-enabled, the download-link reveal, and the
alert box content. -/
structure Display where
  statusLabel : String
  percentShown : Option Int
  timerCleared : Bool
  submitEnabled : Bool
  linkShown : Bool
  linkHref : Option String
  linkText : Option String
  alert : Option (String × Bool)
  deriving DecidableEq, Repr

/-- JS truthiness of an optional string field: an absent field and the
empty string are both falsy. -/
def optTruthy : Option String → Bool
  | some s => s != ""
  | none => false

/-- JS truthiness fallback `filename || "file"` used for the link text. -/
def filenameOrFile : Option String → String
  | some f => if f = "" then "file" else f
  | none => "file"

/-- JS truthiness fallback `error || "Download failed"` used for the alert. -/
def errorOrFailed : Option String → String
  | some e => if e = "" then "Download failed" else e
  | none => "Download failed"

/-- app.js (job-polling document), `checkStatus`: the if/else chain on the
reported `status`, in source order (downloading, merging, completed, queued,
error, otherwise idle). -/
def checkStatus (d : StatusResponse) : Display :=
  if d.status = "downloading" then
    ⟨"Downloading...", some (setStatusClamp (d.progress.getD 0)),
      false, false, false, none, none, none⟩
  else if d.status = "merging" then
    ⟨"Merging audio and video...", some (setStatusClamp (d.progress.getD 99)),
      false, false, false, none, none, none⟩
  else if d.status = "completed" then
    ⟨"Ready", some (setStatusClamp 100), true, true, optTruthy d.downloadUrl,
      if optTruthy d.downloadUrl then d.downloadUrl else none,
      if optTruthy d.downloadUrl then
        some ("Download " ++ filenameOrFile d.filename)
      else none,
      some ("Download complete", false)⟩
  else if d.status = "queued" then
    ⟨"Queued...", some (setStatusClamp (d.progress.getD 0)),
      false, false, false, none, none, none⟩
  else if d.status = "error" then
    ⟨"Error", some (setStatusClamp (d.progress.getD 0)),
      true, true, false, none, none, some (errorOrFailed d.error, true)⟩
  else
    ⟨"Idle", some (setStatusClamp (d.progress.getD 0)),
      false, false, false, none, none, none⟩

/-- Polling-client state: whether `pollTimer` is live and whether the submit
button is disabled. -/
structure PollState where
  timerActive : Bool
  submitDisabled : Bool
  deriving DecidableEq, Repr

/-- One poll interval tick: when the timer is inactive no status request is
issued; otherwise `checkStatus` runs on the response (`none` models a failed
fetch, whose catch block clears the timer and re-enables submit). Returns
the next state and whether a request was issued. -/
def pollTick (st : PollState) (resp : Option StatusResponse) :
    PollState × Bool :=
  if st.timerActive = false then (st, false)
  else
    match resp with
    | none => (⟨false, false⟩, true)
    | some r =>
      let d := checkStatus r
      (⟨!d.timerCleared,
        if d.submitEnabled then false else st.submitDisabled⟩, true)

/-- Runs the poll loop over a list of responses, counting issued requests. -/
def pollLoop : PollState → List (Option StatusResponse) → PollState × Nat
  | st, [] => (st, 0)
  | st, r :: rs =>
    let next := pollTick st r
    let rest := pollLoop next.1 rs
    (rest.1, (if next.2 then 1 else 0) + rest.2)

/-! ## Failure-message handling for the download request (C7) -/

/-- How the non-ok branch of a download handler exits: either it throws
`new Error(message)` itself, or the `response.text()` call inside its catch
throws a TypeError because `response.json()` already consumed the body
stream. -/
inductive FailureOutcome where
  | thrown (message : String)
  | bodyConsumedTypeError
  deriving DecidableEq, Repr

/-- The non-ok branch of the download handlers (app.js direct-stream
document, part_001, part_002): the message starts as the generic one; when
the body parses as JSON, a truthy `error` field replaces it; when parsing
fails, the catch calls `response.text()` — but `response.json()` has
already consumed the body stream, so on a non-empty body that call throws a
TypeError which escapes the inner catch (an absent body yields "",
whose falsiness keeps the generic message). `parsed = none` models a JSON
parse failure, otherwise the inner option is the `error` field; `bodyText`
is the response body, "" standing for an absent body. -/
def failureOutcome (status : Nat) (parsed : Option (Option String))
    (bodyText : String) : FailureOutcome :=
  let base := "Request failed (" ++ toString status ++ ")"
  match parsed with
  | some (some e) => .thrown (if e = "" then base else e)
  | some none => .thrown base
  | none => if bodyText = "" then .thrown base else .bodyConsumedTypeError

/-- What the outer catch displays: for a thrown Error,
`setStatus(error.message || "Something went wrong. Please try again.")`
with the exact message; for the escaped TypeError, the host-defined
body-stream-already-read message. -/
inductive DisplayedFailure where
  | text (s : String)
  | hostTypeErrorMessage
  deriving DecidableEq, Repr

/-- The string category shown by the outer catch of the handlers. -/
def displayedFailure (status : Nat) (parsed : Option (Option String))
    (bodyText : String) : DisplayedFailure :=
  match failureOutcome status parsed bodyText with
  | .thrown m =>
    .text (if m = "" then "Something went wrong. Please try again." else m)
  | .bodyConsumedTypeError => .hostTypeErrorMessage

/-! ## History log (C8) -/

/-- Mode of a history entry as listed by the spec. -/
inductive Mode where
  | audio
  | video
  | playlist
  deriving DecidableEq, Repr

/-- A history entry: filename, quality, container, mode, optional link,
timestamp. -/
structure HistoryEntry where
  filename : String
  quality : String
  container : String
  mode : Mode
  link : Option String
  timestamp : Nat
  deriving DecidableEq, Repr

/-- Modelled from the spec: the server-side History Log (the Flask app is
not under src/). `record(entry)` appends to the front of a bounded ordered
sequence, evicting the tail beyond 15 entries. -/
def record (history : List HistoryEntry) (entry : HistoryEntry) :
    List HistoryEntry :=
  (entry :: history).take 15

/-- Records a batch of entries in order, oldest submitted first. -/
def recordAll (history : List HistoryEntry) (entries : List HistoryEntry) :
    List HistoryEntry :=
  entries.foldl record history

/-- A concrete history entry used to build witness inputs. -/
def mkEntry (n : Nat) : HistoryEntry :=
  ⟨"file" ++ toString n, "720", "mp4", Mode.video, none, n⟩

/-! ## Link store (C1, C2) -/

/-- A stored one-time link: prepared file path, suggested name, creation
time (seconds). -/
structure LinkEntry where
  filePath : String
  filename : String
  createdAt : Nat
  deriving DecidableEq, Repr

/-- The in-process link store: token table plus the set of live prepared
files. -/
structure LinkStore where
  links : List (String × LinkEntry)
  files : List String
  deriving DecidableEq, Repr

/-- Outcome of `resolveLink`: the prepared file path, or one of the two
failure modes of the error taxonomy. -/
inductive ResolveResult where
  | ok (filePath : String)
  | notFound
  | expired
  deriving DecidableEq, Repr

/-- The fixed link expiry window: 30 minutes, in seconds. -/
def linkTTL : Nat := 30 * 60

/-- Modelled from the spec: the server-side Link Store (the Flask app is not
under src/). `resolveLink(token)` fails with Expired when
`now - createdAt > 30 minutes`, deleting the file and the token; fails with
NotFound when the token was never issued or already consumed; otherwise
atomically removes the token and returns the path (the file itself is kept
for streaming). Resolution is a single atomic state transition, so
concurrent resolutions are interleavings of this step. -/
def resolveLink (st : LinkStore) (token : String) (now : Nat) :
    ResolveResult × LinkStore :=
  match st.links.find? (fun p => p.1 == token) with
  | none => (.notFound, st)
  | some entry =>
    let remaining := st.links.filter fun p => p.1 != token
    if linkTTL < now - entry.2.createdAt then
      (.expired,
        ⟨remaining, st.files.filter fun f => f != entry.2.filePath⟩)
    else
      (.ok entry.2.filePath, ⟨remaining, st.files⟩)

/-- Resolves the same token repeatedly at the given times, threading the
store; returns the list of outcomes and the final store. -/
def resolveSeq (st : LinkStore) (token : String) :
    List Nat → List ResolveResult × LinkStore
  | [] => ([], st)
  | t :: ts =>
    let first := resolveLink st token t
    let rest := resolveSeq first.2 token ts
    (first.1 :: rest.1, rest.2)

/-! ## extractFilename (C10) -/

/-- The single-quote character (code 39). -/
def squote : Char := Char.ofNat 39

/-- The double-quote character (code 34). -/
def dquote : Char := Char.ofNat 34

/-- Case-insensitive character comparison, for the regex i-flag. -/
def lowerEq (a b : Char) : Bool := a.toLower == b.toLower

/-- Matches a literal pattern case-insensitively at the head of the input,
returning the rest of the input on success. -/
def matchesCI : List Char → List Char → Option (List Char)
  | [], cs => some cs
  | _ :: _, [] => none
  | p :: ps, c :: cs => if lowerEq p c then matchesCI ps cs else none

/-- Attempts the regex filename\*?=([^;]+) (i-flag) at the current position:
literal `filename`, an optional `*`, a literal `=`, then a non-empty capture
of characters other than a semicolon. Returns the capture. -/
def matchFilenameAt (cs : List Char) : Option (List Char) :=
  match matchesCI ("filename".data) cs with
  | none => none
  | some rest =>
    let afterEq : Option (List Char) :=
      match rest with
      | '*' :: '=' :: rs => some rs
      | '=' :: rs => some rs
      | _ => none
    match afterEq with
    | none => none
    | some rs =>
      let captured := rs.takeWhile fun c => c != ';'
      if captured.isEmpty then none else some captured

/-- Leftmost match of the filename regex: tries each start position from the
left and returns the first capture, as `exec` does. -/
def findFilenameMatch : List Char → Option (List Char)
  | [] => none
  | c :: cs =>
    match matchFilenameAt (c :: cs) with
    | some cap => some cap
    | none => findFilenameMatch cs

/-- Hex digit value of a character, if any (both cases accepted). -/
def hexDigit? (c : Char) : Option Nat :=
  if '0' ≤ c ∧ c ≤ '9' then some (c.toNat - 48)
  else if 'a' ≤ c ∧ c ≤ 'f' then some (c.toNat - 87)
  else if 'A' ≤ c ∧ c ≤ 'F' then some (c.toNat - 55)
  else none

/-- UTF-8 encoding of one character, as byte values. -/
def utf8Bytes (c : Char) : List Nat :=
  let n := c.toNat
  if n < 128 then [n]
  else if n < 2048 then [192 + n / 64, 128 + n % 64]
  else if n < 65536 then
    [224 + n / 4096, 128 + n / 64 % 64, 128 + n % 64]
  else
    [240 + n / 262144, 128 + n / 4096 % 64, 128 + n / 64 % 64, 128 + n % 64]

/-- Turns a percent-encoded character sequence into bytes: `%XX` becomes the
byte `XX` (failing on a malformed escape), any other character contributes
its own UTF-8 bytes. -/
def percentBytes : List Char → Option (List Nat)
  | [] => some []
  | '%' :: h1 :: h2 :: rest =>
    match hexDigit? h1, hexDigit? h2, percentBytes rest with
    | some d1, some d2, some bs => some ((16 * d1 + d2) :: bs)
    | _, _, _ => none
  | '%' :: _ => none
  | c :: rest =>
    match percentBytes rest with
    | some bs => some (utf8Bytes c ++ bs)
    | none => none

/-- Whether a byte is a UTF-8 continuation byte. -/
def isCont (b : Nat) : Bool := 128 ≤ b && b < 192

/-- Decodes a byte list as UTF-8, rejecting stray continuations, truncated
or overlong sequences, surrogates and out-of-range code points — the inputs
on which `decodeURIComponent` throws a URIError. -/
def utf8Decode : List Nat → Option (List Char)
  | [] => some []
  | b :: bs =>
    if b < 128 then
      match utf8Decode bs with
      | some cs => some (Char.ofNat b :: cs)
      | none => none
    else if b < 192 then none
    else if b < 224 then
      match bs with
      | b1 :: rest =>
        if isCont b1 then
          let n := (b - 192) * 64 + (b1 - 128)
          if n < 128 then none
          else
            match utf8Decode rest with
            | some cs => some (Char.ofNat n :: cs)
            | none => none
        else none
      | [] => none
    else if b < 240 then
      match bs with
      | b1 :: b2 :: rest =>
        if isCont b1 && isCont b2 then
          let n := (b - 224) * 4096 + (b1 - 128) * 64 + (b2 - 128)
          if n < 2048 then none
          else if 55296 ≤ n ∧ n < 57344 then none
          else
            match utf8Decode rest with
            | some cs => some (Char.ofNat n :: cs)
            | none => none
        else none
      | _ => none
    else if b < 248 then
      match bs with
      | b1 :: b2 :: b3 :: rest =>
        if isCont b1 && isCont b2 && isCont b3 then
          let n := (b - 240) * 262144 + (b1 - 128) * 4096
            + (b2 - 128) * 64 + (b3 - 128)
          if n < 65536 then none
          else if 1114111 < n then none
          else
            match utf8Decode rest with
            | some cs => some (Char.ofNat n :: cs)
            | none => none
        else none
      | _ => none
    else none

/-- The JS `decodeURIComponent`, modelled as a partial function: `none` is
the thrown URIError. -/
def decodeURIComponent (s : String) : Option String :=
  match percentBytes s.data with
  | none => none
  | some bs =>
    match utf8Decode bs with
    | some cs => some (String.mk cs)
    | none => none

/-- The literal stripped by replace at the start of the match: the seven
characters UTF-8 followed by two single quotes. -/
def utf8Marker : String := "UTF-8" ++ String.mk [squote, squote]

/-- Whether the pattern is a prefix of the input, over character lists. -/
def listStartsWith : List Char → List Char → Bool
  | [], _ => true
  | _ :: _, [] => false
  | p :: ps, c :: cs => p == c && listStartsWith ps cs

/-- Strips the encoded-filename marker from the front, once. -/
def stripMarker (s : String) : String :=
  if listStartsWith utf8Marker.data s.data then String.mk (s.data.drop 7)
  else s

/-- Removes every single and double quote, the global replace. -/
def removeQuotes (s : String) : String :=
  String.mk (s.data.filter fun c => c != dquote && c != squote)

/-- The processing of a successful regex capture: trim, strip the marker,
percent-decode (a URIError propagates, modelled as `none`), remove quotes,
and fall back when the result is empty. -/
def capPipeline (fallback : String) (cap : List Char) : Option String :=
  let value := stripMarker (jsTrim (String.mk cap))
  match decodeURIComponent value with
  | none => none
  | some dec =>
    let cleaned := removeQuotes dec
    some (if cleaned = "" then fallback else cleaned)

/-- `extractFilename(disposition, fallback)` as defined identically in
app.js, audio.js, playlist.js, part_001 and part_002: fallback when the
header is absent or empty or the regex finds no match; otherwise the
capture goes through `capPipeline`. -/
def extractFilename (disposition : Option String) (fallback : String) :
    Option String :=
  match disposition with
  | none => some fallback
  | some d =>
    if d = "" then some fallback
    else
      match findFilenameMatch d.data with
      | none => some fallback
      | some cap => capPipeline fallback cap

/-! ## Theorems -/

/-- C6: every percentage the UI renders lies in 0–100: `setStatus` clamps
its progress argument with max(0, min(100, value)), and the streamed
percentage is min(100, floor(received/contentLength*100)), computed only
when contentLength > 0, so the division is guarded and the shown percent
never exceeds 100 even when more bytes arrive than announced. -/
theorem progress_display_bounded (p : Int) (contentLength received pct : Nat)
    (h : streamPercent contentLength received = some pct) :
    0 ≤ setStatusClamp p ∧ setStatusClamp p ≤ 100 ∧
    0 < contentLength ∧ pct ≤ 100 := by
  refine ⟨le_max_left 0 _, max_le (by norm_num) (min_le_left _ _), ?_⟩
  unfold streamPercent at h
  by_cases hc : 0 < contentLength
  · simp only [hc, if_pos] at h
    obtain rfl : min 100 (received * 100 / contentLength) = pct :=
      Option.some.inj h
    exact ⟨hc, Nat.min_le_left _ _⟩
  · simp [hc] at h

/-- Witness for C6 at contentLength 200, received 100 (50 percent shown)
and an out-of-range progress argument 150. -/
theorem progress_display_bounded_witness :
    0 ≤ setStatusClamp 150 ∧ setStatusClamp 150 ≤ 100 ∧
    0 < 200 ∧ 50 ≤ 100 :=
  progress_display_bounded 150 200 100 50 (by decide)

/-- C9: `renderVideoRows` offers exactly the cross product of the qualities
with the containers other than m4a and mp3; the video table never contains a
row for an audio-only container, and a containers list made only of
m4a/mp3 yields no rows. -/
theorem renderVideoRows_cross_product (qualities containers audioOnly :
    List String) (q c : String)
    (hAudio : ∀ x ∈ audioOnly, x = "m4a" ∨ x = "mp3") :
    ((q, c) ∈ renderVideoRows qualities containers ↔
      q ∈ qualities ∧ c ∈ containers ∧ c ≠ "m4a" ∧ c ≠ "mp3") ∧
    renderVideoRows qualities audioOnly = [] := by
  have hlist : (if qualities.length ≠ 0 then qualities else []) = qualities := by
    split
    · rfl
    · next hz => exact (List.length_eq_zero.mp (by omega)).symm
  constructor
  · simp only [renderVideoRows, hlist, List.mem_flatMap, List.mem_map,
      List.mem_filter]
    constructor
    · rintro ⟨a, ha, b, ⟨hb, hbv⟩, heq⟩
      obtain ⟨rfl, rfl⟩ : a = q ∧ b = c := Prod.mk.injEq .. ▸ heq
      simp only [Bool.and_eq_true, bne_iff_ne, ne_eq] at hbv
      exact ⟨ha, hb, hbv.1, hbv.2⟩
    · rintro ⟨hq', hc', h1, h2⟩
      exact ⟨q, hq', c, ⟨hc', by simp [h1, h2]⟩, rfl⟩
  · have hnil : audioOnly.filter (fun c => c != "m4a" && c != "mp3") = [] := by
      rw [List.filter_eq_nil_iff]
      intro a ha
      rcases hAudio a ha with h | h <;> simp [h]
    unfold renderVideoRows
    simp [hnil]

/-- Witness for C9 with qualities [1080, 720] and containers containing the
audio-only m4a and mp3 entries. -/
theorem renderVideoRows_cross_product_witness :
    (("720", "mkv") ∈ renderVideoRows ["1080", "720"] ["mp4", "m4a", "mkv"] ↔
      "720" ∈ ["1080", "720"] ∧ "mkv" ∈ ["mp4", "m4a", "mkv"] ∧
      "mkv" ≠ "m4a" ∧ "mkv" ≠ "mp3") ∧
    renderVideoRows ["1080", "720"] ["m4a", "mp3"] = [] :=
  renderVideoRows_cross_product ["1080", "720"] ["mp4", "m4a", "mkv"]
    ["m4a", "mp3"] "720" "mkv" (by decide)

/-- C3 counterexample: the job-polling document of app.js registers
`startDownload` as the form submit handler, and that handler posts to the
download endpoint without checking the trimmed URL for non-emptiness, so it
is not the case that every client form handler rejects an empty trimmed URL
before fetching. -/
theorem polling_submit_fetches_empty_url :
    ¬ (∀ u q : String, jsTrim u = "" →
        (pollingStartDownload u q).issuesFetch = false) := by
  intro h
  exact absurd (h "" "720" rfl) (by decide)

/-- C3 (amended): the form submit handlers and part_001's `startDownload`
— the app.js stream form handler, `startDownload` in part_001, the
part_002 form handler, the audio.js form handler and the playlist.js
handler — reject an empty trimmed URL with a descriptive message and issue
no download request; the job-polling submit handler and the row-button
`startDownload` of audio.js issue the fetch with no emptiness check,
leaving the empty-URL case to server-side validation. -/
theorem empty_url_guard_by_handler (u q fn c mode sq : String)
    (hasOptions : Bool) (h : jsTrim u = "") :
    appStreamSubmit u q fn = .reject "Please paste a YouTube URL first." ∧
    part001StartDownload u fn q c =
      .reject "Please paste a YouTube URL first." ∧
    part002Submit u = .reject "Please paste a YouTube URL first." ∧
    audioFormSubmit u q fn hasOptions =
      .reject "Please paste a YouTube URL first." ∧
    playlistStartDownload u mode q fn =
      .reject "Please paste a playlist URL first." ∧
    (pollingStartDownload u q).issuesFetch = true ∧
    (audioStartDownload u q fn sq).issuesFetch = true := by
  refine ⟨?_, ?_, ?_, ?_, ?_, ?_, ?_⟩ <;>
    simp [appStreamSubmit, part001StartDownload, part002Submit,
      audioFormSubmit, playlistStartDownload, pollingStartDownload,
      audioStartDownload, HandlerAction.issuesFetch, h]

/-- Witness for C3 (amended) on a whitespace-only URL field. -/
theorem empty_url_guard_by_handler_witness :
    appStreamSubmit " " "720" "" = .reject "Please paste a YouTube URL first." ∧
    part001StartDownload " " "" "720" "mp4" =
      .reject "Please paste a YouTube URL first." ∧
    part002Submit " " = .reject "Please paste a YouTube URL first." ∧
    audioFormSubmit " " "720" "" false =
      .reject "Please paste a YouTube URL first." ∧
    playlistStartDownload " " "audio" "720" "" =
      .reject "Please paste a playlist URL first." ∧
    (pollingStartDownload " " "720").issuesFetch = true ∧
    (audioStartDownload " " "720" "" "320").issuesFetch = true :=
  empty_url_guard_by_handler " " "720" "" "mp4" "audio" "320" false
    (by decide)

/-- C4: `checkStatus` distinguishes exactly the five statuses: queued and
downloading display the reported progress defaulting to 0, merging defaults
to 99, completed displays exactly 100 and reveals the link exactly when the
download URL is truthy (present and non-empty, the JS `if (downloadUrl)`),
error raises the reported error message, and any other status falls back to
the idle display. -/
theorem checkStatus_five_statuses (p : Option Int) (u eo f : Option String)
    (e other url : String) (hE : e ≠ "") (hU : url ≠ "")
    (h1 : other ≠ "queued") (h2 : other ≠ "downloading")
    (h3 : other ≠ "merging") (h4 : other ≠ "completed")
    (h5 : other ≠ "error") :
    checkStatus ⟨"queued", p, u, eo, f⟩ =
      ⟨"Queued...", some (setStatusClamp (p.getD 0)), false, false, false,
        none, none, none⟩ ∧
    checkStatus ⟨"downloading", p, u, eo, f⟩ =
      ⟨"Downloading...", some (setStatusClamp (p.getD 0)), false, false,
        false, none, none, none⟩ ∧
    checkStatus ⟨"merging", p, u, eo, f⟩ =
      ⟨"Merging audio and video...", some (setStatusClamp (p.getD 99)),
        false, false, false, none, none, none⟩ ∧
    checkStatus ⟨"completed", p, u, eo, f⟩ =
      ⟨"Ready", some 100, true, true, optTruthy u,
        if optTruthy u then u else none,
        if optTruthy u then some ("Download " ++ filenameOrFile f) else none,
        some ("Download complete", false)⟩ ∧
    checkStatus ⟨"completed", p, some url, eo, f⟩ =
      ⟨"Ready", some 100, true, true, true, some url,
        some ("Download " ++ filenameOrFile f),
        some ("Download complete", false)⟩ ∧
    checkStatus ⟨"completed", p, some "", eo, f⟩ =
      ⟨"Ready", some 100, true, true, false, none, none,
        some ("Download complete", false)⟩ ∧
    checkStatus ⟨"completed", p, none, eo, f⟩ =
      ⟨"Ready", some 100, true, true, false, none, none,
        some ("Download complete", false)⟩ ∧
    checkStatus ⟨"error", p, u, some e, f⟩ =
      ⟨"Error", some (setStatusClamp (p.getD 0)), true, true, false, none,
        none, some (e, true)⟩ ∧
    checkStatus ⟨other, p, u, eo, f⟩ =
      ⟨"Idle", some (setStatusClamp (p.getD 0)), false, false, false, none,
        none, none⟩ := by
  have h100 : setStatusClamp 100 = 100 := by decide
  refine ⟨?_, ?_, ?_, ?_, ?_, ?_, ?_, ?_, ?_⟩ <;>
    simp [checkStatus, errorOrFailed, optTruthy, bne_iff_ne, h100, hE, hU,
      h1, h2, h3, h4, h5]

/-- Witness for C4 on a queued response carrying progress 42, using a
non-empty link URL, a non-empty error string and an unknown status for the
hypotheses. -/
theorem checkStatus_five_statuses_witness :
    checkStatus ⟨"queued", some 42, none, none, none⟩ =
      ⟨"Queued...", some 42, false, false, false, none, none, none⟩ := by
  rw [(checkStatus_five_statuses (some 42) none none none "boom" "weird"
    "/api/link/t" (by decide) (by decide) (by decide) (by decide) (by decide)
    (by decide) (by decide)).1]
  decide

/-- Helper: with the poll timer inactive, the poll loop issues no request
and never changes state. -/
theorem pollLoop_inactive (rs : List (Option StatusResponse))
    (st : PollState) (h : st.timerActive = false) :
    pollLoop st rs = (st, 0) := by
  induction rs with
  | nil => rfl
  | cons r rs ih => simp [pollLoop, pollTick, h, ih]

/-- C5: once the polling client observes a completed or error status, the
poll timer is cleared and the submit button re-enabled, and from that state
the poll loop issues no further status request and observes no further
transition, whatever responses would follow. -/
theorem terminal_status_stops_polling (st : PollState) (r : StatusResponse)
    (rest : List (Option StatusResponse)) (hA : st.timerActive = true)
    (hT : r.status = "completed" ∨ r.status = "error") :
    (pollTick st (some r)).1.timerActive = false ∧
    (pollTick st (some r)).1.submitDisabled = false ∧
    pollLoop (pollTick st (some r)).1 rest = ((pollTick st (some r)).1, 0) := by
  have hD : (checkStatus r).timerCleared = true ∧
      (checkStatus r).submitEnabled = true := by
    rcases hT with h | h <;> simp [checkStatus, h]
  have hTick : (pollTick st (some r)).1 = ⟨false, false⟩ := by
    simp [pollTick, hA, hD.1, hD.2]
  refine ⟨by rw [hTick], by rw [hTick], ?_⟩
  rw [hTick]
  exact pollLoop_inactive rest ⟨false, false⟩ rfl

/-- Witness for C5: a completed response with an active timer, followed by
two more would-be responses that are never requested. -/
theorem terminal_status_stops_polling_witness :
    (pollTick ⟨true, true⟩
      (some ⟨"completed", some 100, some "/api/link/t", none,
        some "v.mp4"⟩)).1.timerActive = false ∧
    (pollTick ⟨true, true⟩
      (some ⟨"completed", some 100, some "/api/link/t", none,
        some "v.mp4"⟩)).1.submitDisabled = false ∧
    pollLoop (pollTick ⟨true, true⟩
      (some ⟨"completed", some 100, some "/api/link/t", none,
        some "v.mp4"⟩)).1
      [some ⟨"queued", none, none, none, none⟩, none] =
      ((pollTick ⟨true, true⟩
        (some ⟨"completed", some 100, some "/api/link/t", none,
          some "v.mp4"⟩)).1, 0) :=
  terminal_status_stops_polling ⟨true, true⟩
    ⟨"completed", some 100, some "/api/link/t", none, some "v.mp4"⟩
    [some ⟨"queued", none, none, none, none⟩, none] rfl (Or.inl rfl)

/-- Helper: the generic failure message is never the empty string. -/
theorem requestFailed_ne_empty (status : Nat) :
    ("Request failed (" ++ toString status ++ ")" : String) ≠ "" := by
  intro hx
  have hlen := congrArg String.length hx
  rw [String.length_append, String.length_append] at hlen
  have hl : ("Request failed (" : String).length = 16 := rfl
  have hr : (")" : String).length = 1 := rfl
  have hz : ("" : String).length = 0 := rfl
  omega

/-- C7 counterexample: on a JSON parse failure with a non-empty body, the
inner catch's `response.text()` throws because `response.json()` already
consumed the body stream, and the handler displays that TypeError's
host-defined message — neither the response text nor the generic message —
so the claimed fallback to the response text never happens. -/
theorem parse_failure_never_shows_body_text :
    displayedFailure 500 none "oops" ≠ DisplayedFailure.text "oops" ∧
    displayedFailure 500 none "oops" ≠
      DisplayedFailure.text ("Request failed (" ++ toString 500 ++ ")") ∧
    displayedFailure 500 none "oops" =
      DisplayedFailure.hostTypeErrorMessage :=
  ⟨by decide, by decide, rfl⟩

/-- C7 (amended): a truthy JSON `error` string is displayed exactly,
verbatim; a parsed body without a truthy error shows the generic Request
failed message, as does a parse failure on an absent body; but a parse
failure on a non-empty body surfaces the host TypeError raised by reading
the already-consumed stream, never the response text. -/
theorem failure_message_amended (status : Nat) (bodyText e : String)
    (hE : e ≠ "") (hB : bodyText ≠ "") :
    displayedFailure status (some (some e)) bodyText =
      DisplayedFailure.text e ∧
    displayedFailure status (some none) bodyText =
      DisplayedFailure.text ("Request failed (" ++ toString status ++ ")") ∧
    displayedFailure status (some (some "")) bodyText =
      DisplayedFailure.text ("Request failed (" ++ toString status ++ ")") ∧
    displayedFailure status none "" =
      DisplayedFailure.text ("Request failed (" ++ toString status ++ ")") ∧
    displayedFailure status none bodyText =
      DisplayedFailure.hostTypeErrorMessage := by
  have hbase := requestFailed_ne_empty status
  refine ⟨?_, ?_, ?_, ?_, ?_⟩ <;>
    simp [displayedFailure, failureOutcome, hE, hB, hbase]

/-- Witness for C7 (amended) at status 404, body text oops and error disk
full. -/
theorem failure_message_amended_witness :
    displayedFailure 404 (some (some "disk full")) "oops" =
      DisplayedFailure.text "disk full" ∧
    displayedFailure 404 (some none) "oops" =
      DisplayedFailure.text ("Request failed (" ++ toString 404 ++ ")") ∧
    displayedFailure 404 (some (some "")) "oops" =
      DisplayedFailure.text ("Request failed (" ++ toString 404 ++ ")") ∧
    displayedFailure 404 none "" =
      DisplayedFailure.text ("Request failed (" ++ toString 404 ++ ")") ∧
    displayedFailure 404 none "oops" =
      DisplayedFailure.hostTypeErrorMessage :=
  failure_message_amended 404 "oops" "disk full" (by decide) (by decide)

/-- Helper: taking after an append absorbs an inner take of at least the
same size. -/
theorem take_append_take {α : Type} (a b : List α) (n m : Nat) (h : n ≤ m) :
    (a ++ b.take m).take n = (a ++ b).take n := by
  rw [List.take_append_eq_append_take, List.take_append_eq_append_take,
    List.take_take,
    Nat.min_eq_left (le_trans (Nat.sub_le n a.length) h)]

/-- Helper: recording a batch onto a history of at most 15 entries keeps
the 15 most recent, most-recent-first. -/
theorem recordAll_take (entries : List HistoryEntry)
    (acc : List HistoryEntry) (h : acc.length ≤ 15) :
    recordAll acc entries = (entries.reverse ++ acc).take 15 := by
  induction entries generalizing acc with
  | nil =>
    simp only [recordAll, List.foldl_nil, List.reverse_nil, List.nil_append]
    exact (List.take_of_length_le h).symm
  | cons e es ih =>
    have hstep : recordAll acc (e :: es) = recordAll ((e :: acc).take 15) es :=
      rfl
    rw [hstep, ih ((e :: acc).take 15) (List.length_take_le 15 _),
      take_append_take es.reverse (e :: acc) 15 15 le_rfl]
    simp [List.reverse_cons, List.append_assoc]

/-- C8: the history log is bounded at 15 entries, most-recent-first:
recording 16 entries leaves exactly the 15 most recent in recency order,
`record` prepends, and previously recorded entries reappear unchanged (only
the tail beyond 15 is evicted). -/
theorem history_bounded_recency (entries : List HistoryEntry)
    (h16 : entries.length = 16) (history : List HistoryEntry)
    (e : HistoryEntry) :
    recordAll [] entries = entries.reverse.take 15 ∧
    (recordAll [] entries).length = 15 ∧
    (record history e).head? = some e ∧
    (record history e).tail = history.take 14 := by
  have h1 : recordAll [] entries = entries.reverse.take 15 := by
    simpa using recordAll_take entries [] (by simp)
  refine ⟨h1, ?_, rfl, rfl⟩
  rw [h1]
  simp [List.length_take, h16]

/-- Witness for C8 on 16 distinct concrete entries. -/
theorem history_bounded_recency_witness :
    recordAll [] ((List.range 16).map mkEntry) =
      ((List.range 16).map mkEntry).reverse.take 15 ∧
    (recordAll [] ((List.range 16).map mkEntry)).length = 15 ∧
    (record [mkEntry 0] (mkEntry 99)).head? = some (mkEntry 99) ∧
    (record [mkEntry 0] (mkEntry 99)).tail = [mkEntry 0].take 14 :=
  history_bounded_recency ((List.range 16).map mkEntry) (by decide)
    [mkEntry 0] (mkEntry 99)

/-- Helper: on a store whose token table no longer holds the token, every
further resolution of that token reports NotFound and leaves the store
unchanged. -/
theorem resolveSeq_notFound (token : String) (times : List Nat)
    (st : LinkStore)
    (h : st.links.find? (fun q => q.1 == token) = none) :
    (resolveSeq st token times).1.all
      (fun r => r == ResolveResult.notFound) = true ∧
    (resolveSeq st token times).2 = st := by
  induction times with
  | nil => exact ⟨rfl, rfl⟩
  | cons t ts ih =>
    have hstep : resolveLink st token t = (.notFound, st) := by
      simp [resolveLink, h]
    simp [resolveSeq, hstep, ih.1, ih.2]

/-- C1: resolving a link token succeeds at most once — after a resolution
returns the file path, every later resolution of the same token fails with
NotFound and the store no longer changes, so the file is never handed out
twice (resolution is one atomic transition, so concurrent attempts are
interleavings of it). -/
theorem resolveLink_at_most_once (st : LinkStore) (token : String)
    (now : Nat) (p : String) (times : List Nat)
    (h : (resolveLink st token now).1 = .ok p) :
    (resolveSeq (resolveLink st token now).2 token times).1.all
      (fun r => r == ResolveResult.notFound) = true ∧
    (resolveSeq (resolveLink st token now).2 token times).2 =
      (resolveLink st token now).2 := by
  have hlinks : (resolveLink st token now).2.links =
      st.links.filter fun q => q.1 != token := by
    rcases hf : st.links.find? (fun q => q.1 == token) with _ | entry
    · simp [resolveLink, hf] at h
    · by_cases hexp : linkTTL < now - entry.2.createdAt
      · simp [resolveLink, hf, hexp] at h
      · simp [resolveLink, hf, hexp]
  have hnone : (resolveLink st token now).2.links.find?
      (fun q => q.1 == token) = none := by
    rw [hlinks, List.find?_eq_none]
    intro x hx
    have hxf := (List.mem_filter.mp hx).2
    simp only [bne_iff_ne, ne_eq] at hxf
    simpa using hxf
  exact resolveSeq_notFound token times _ hnone

/-- Witness for C1: a store holding one token, resolved successfully at
time 1000, then twice more at later times. -/
theorem resolveLink_at_most_once_witness :
    (resolveSeq (resolveLink
        ⟨[("t1", ⟨"/tmp/a.mp4", "a.mp4", 100⟩)], ["/tmp/a.mp4"]⟩
        "t1" 1000).2 "t1" [2000, 999999]).1.all
      (fun r => r == ResolveResult.notFound) = true ∧
    (resolveSeq (resolveLink
        ⟨[("t1", ⟨"/tmp/a.mp4", "a.mp4", 100⟩)], ["/tmp/a.mp4"]⟩
        "t1" 1000).2 "t1" [2000, 999999]).2 =
      (resolveLink
        ⟨[("t1", ⟨"/tmp/a.mp4", "a.mp4", 100⟩)], ["/tmp/a.mp4"]⟩
        "t1" 1000).2 :=
  resolveLink_at_most_once
    ⟨[("t1", ⟨"/tmp/a.mp4", "a.mp4", 100⟩)], ["/tmp/a.mp4"]⟩
    "t1" 1000 "/tmp/a.mp4" [2000, 999999] rfl

/-- C2: a present token resolves with Expired exactly when the call comes
more than 30 minutes after creation (deleting both the token and the file),
and returns the file path whenever the call comes within the window; in
particular the boundary sits at 30 minutes, with resolution at
createdAt + 29 minutes succeeding and at createdAt + 31 minutes failing. -/
theorem resolveLink_expiry_boundary (links : List (String × LinkEntry))
    (files : List String) (token : String) (entry : String × LinkEntry)
    (hf : links.find? (fun q => q.1 == token) = some entry)
    (tLate tEarly : Nat)
    (hLate : entry.2.createdAt + linkTTL < tLate)
    (hEarly : tEarly ≤ entry.2.createdAt + linkTTL) :
    resolveLink ⟨links, files⟩ token tLate =
      (.expired, ⟨links.filter fun q => q.1 != token,
        files.filter fun fp => fp != entry.2.filePath⟩) ∧
    resolveLink ⟨links, files⟩ token tEarly =
      (.ok entry.2.filePath,
        ⟨links.filter fun q => q.1 != token, files⟩) ∧
    (resolveLink ⟨links, files⟩ token
      (entry.2.createdAt + 31 * 60)).1 = .expired ∧
    (resolveLink ⟨links, files⟩ token
      (entry.2.createdAt + 29 * 60)).1 = .ok entry.2.filePath := by
  have hc1 : linkTTL < tLate - entry.2.createdAt := by
    unfold linkTTL at hLate ⊢
    omega
  have hc2 : ¬ linkTTL < tEarly - entry.2.createdAt := by
    unfold linkTTL at hEarly ⊢
    omega
  have hc3 : linkTTL < 1860 := by
    unfold linkTTL
    omega
  have hc4 : ¬ linkTTL < 1740 := by
    unfold linkTTL
    omega
  refine ⟨?_, ?_, ?_, ?_⟩ <;> simp [resolveLink, hf, hc1, hc2, hc3, hc4]

/-- Witness for C2: a token created at time 100, resolved at 2000 (past the
window), at 1900 (the boundary itself), at 1960 (31 minutes) and at 1840
(29 minutes). -/
theorem resolveLink_expiry_boundary_witness :
    resolveLink ⟨[("t1", ⟨"/tmp/a.mp4", "a.mp4", 100⟩)], ["/tmp/a.mp4"]⟩
      "t1" 2000 = (.expired, ⟨[], []⟩) ∧
    resolveLink ⟨[("t1", ⟨"/tmp/a.mp4", "a.mp4", 100⟩)], ["/tmp/a.mp4"]⟩
      "t1" 1900 = (.ok "/tmp/a.mp4", ⟨[], ["/tmp/a.mp4"]⟩) ∧
    (resolveLink ⟨[("t1", ⟨"/tmp/a.mp4", "a.mp4", 100⟩)], ["/tmp/a.mp4"]⟩
      "t1" 1960).1 = .expired ∧
    (resolveLink ⟨[("t1", ⟨"/tmp/a.mp4", "a.mp4", 100⟩)], ["/tmp/a.mp4"]⟩
      "t1" 1840).1 = .ok "/tmp/a.mp4" :=
  resolveLink_expiry_boundary [("t1", ⟨"/tmp/a.mp4", "a.mp4", 100⟩)]
    ["/tmp/a.mp4"] "t1" ("t1", ⟨"/tmp/a.mp4", "a.mp4", 100⟩) rfl
    2000 1900 (by decide) (by decide)

/-- C10: `extractFilename` returns the fallback when the disposition header
is absent, empty or has no filename parameter; otherwise the capture is
trimmed, the encoded-name marker stripped, percent-decoded (a URIError
propagates) and stripped of quote characters, with the fallback used again
when that result is empty — so a returned filename is never empty when the
fallback is not. -/
theorem extractFilename_behaviour (d fallback : String) (hfb : fallback ≠ "") :
    extractFilename none fallback = some fallback ∧
    (findFilenameMatch d.data = none →
      extractFilename (some d) fallback = some fallback) ∧
    (∀ cap, findFilenameMatch d.data = some cap →
      extractFilename (some d) fallback =
        (decodeURIComponent (stripMarker (jsTrim (String.mk cap)))).map
          fun dec =>
            if removeQuotes dec = "" then fallback else removeQuotes dec) ∧
    (∀ r, extractFilename (some d) fallback = some r → r ≠ "") := by
  have hpipe : ∀ cap : List Char, capPipeline fallback cap =
      (decodeURIComponent (stripMarker (jsTrim (String.mk cap)))).map
        fun dec =>
          if removeQuotes dec = "" then fallback else removeQuotes dec := by
    intro cap
    simp only [capPipeline]
    rcases hdec :
        decodeURIComponent (stripMarker (jsTrim (String.mk cap)))
      with _ | dec <;> simp [hdec]
  have hcase : ∀ cap, findFilenameMatch d.data = some cap →
      extractFilename (some d) fallback = capPipeline fallback cap := by
    intro cap hm
    by_cases hd : d = ""
    · rw [hd] at hm
      exact Option.noConfusion hm
    · simp [extractFilename, hd, hm]
  refine ⟨rfl, ?_, ?_, ?_⟩
  · intro hm
    by_cases hd : d = "" <;> simp [extractFilename, hd, hm]
  · intro cap hm
    rw [hcase cap hm, hpipe cap]
  · intro r hr
    by_cases hd : d = ""
    · rw [show extractFilename (some d) fallback = some fallback from
        by simp [extractFilename, hd]] at hr
      exact (Option.some.inj hr) ▸ hfb
    · rcases hmm : findFilenameMatch d.data with _ | cap
      · rw [show extractFilename (some d) fallback = some fallback from
          by simp [extractFilename, hd, hmm]] at hr
        exact (Option.some.inj hr) ▸ hfb
      · rw [hcase cap hmm, hpipe cap] at hr
        rcases hdec :
            decodeURIComponent (stripMarker (jsTrim (String.mk cap)))
          with _ | dec <;> rw [hdec] at hr
        · exact Option.noConfusion hr
        · have hval := Option.some.inj (by simpa using hr)
          rw [← hval]
          split
          · exact hfb
          · next hcl => exact hcl

/-- Witness for C10: no header, a header without a filename parameter, and
a quoted percent-encoded filename that decodes to a non-empty name. -/
theorem extractFilename_behaviour_witness :
    extractFilename none "video.mp4" = some "video.mp4" ∧
    extractFilename (some "attachment") "video.mp4" = some "video.mp4" ∧
    ("report name.pdf" : String) ≠ "" :=
  ⟨(extractFilename_behaviour "attachment" "video.mp4" (by decide)).1,
   (extractFilename_behaviour "attachment" "video.mp4" (by decide)).2.1 rfl,
   (extractFilename_behaviour "attachment; filename=\"report%20name.pdf\""
     "video.mp4" (by decide)).2.2.2 "report name.pdf" (by decide)⟩

end YtDl
